import Mathlib

/-!
Shallow embedding of the threshold risk evaluator of
`src/1.py` (class `PredictiveMaintenance`): the threshold table, the
per-sensor status assessment, the weighted likelihood aggregation and
the recommendation formatter.  Numeric sensor values and weights are
modelled as rationals; every constant appearing in the configured
threshold table and in the risk factors (0, 0.5, 1) is exactly
representable, so rational arithmetic coincides with the source's
float arithmetic on these claims.
-/

/-- A critical bound as stored in the threshold dictionary: either a plain
scalar upper bound or a tuple interval (tested exterior-is-bad). -/
inductive CritBound where
  | scalar (c : ℚ)
  | interval (lo hi : ℚ)
deriving DecidableEq, Repr

/-- A warning bound as stored in the threshold dictionary: either a tuple
interval (tested exterior-is-bad), or a non-tuple two-element bound of
which the code path reads only the upper member (index 1). -/
inductive WarnBound where
  | interval (lo hi : ℚ)
  | pairUpper (lo hi : ℚ)
deriving DecidableEq, Repr

/-- One entry of the `self.thresholds` dictionary of `PredictiveMaintenance`:
a normal range, a warning bound, a critical bound and a weight. -/
structure SensorSpec where
  normal : ℚ × ℚ
  warning : WarnBound
  critical : CritBound
  weight : ℚ
deriving DecidableEq, Repr

/-- The warning/normal tail of `assess_parameter_status` (src/1.py lines
123-129), reached when the critical test did not fire: a tuple warning
bound is tested exterior-is-bad, a non-tuple bound only at its upper
member; otherwise the status is NORMAL. -/
def assessWarning (spec : SensorSpec) (value : ℚ) : String × ℚ :=
  match spec.warning with
  | .interval lo hi =>
      if value < lo ∨ value > hi then ("WARNING", 1/2) else ("NORMAL", 0)
  | .pairUpper _ hi =>
      if value > hi then ("WARNING", 1/2) else ("NORMAL", 0)

/-- `assess_parameter_status` of src/1.py (lines 115-129), with the
dictionary lookup already resolved to `spec`: a tuple critical bound is
tested exterior-is-bad, a scalar critical bound at its upper side; when
neither fires the warning bound is consulted. -/
def assess_parameter_status (spec : SensorSpec) (value : ℚ) : String × ℚ :=
  match spec.critical with
  | .interval lo hi =>
      if value < lo ∨ value > hi then ("CRITICAL", 1) else assessWarning spec value
  | .scalar c =>
      if value > c then ("CRITICAL", 1) else assessWarning spec value

/-- The configured `self.thresholds` table of `PredictiveMaintenance.__init__`
(src/1.py lines 16-24), in dictionary insertion order. -/
def thresholds : List (String × SensorSpec) :=
  [("temperature", ⟨(20, 60), .interval 60 80, .scalar 80, 25⟩),
   ("vibration",   ⟨(0.1, 2.0), .interval 2.0 3.0, .scalar 3.0, 20⟩),
   ("pressure",    ⟨(2.0, 8.0), .interval 1.5 8.5, .interval 1.0 9.0, 15⟩),
   ("humidity",    ⟨(30, 60), .interval 60 70, .scalar 70, 10⟩),
   ("runtime",     ⟨(0, 5000), .interval 5000 8000, .scalar 8000, 20⟩),
   ("load",        ⟨(0, 0.7), .interval 0.7 0.9, .scalar 0.9, 10⟩),
   ("speed",       ⟨(500, 2000), .interval 2000 2500, .scalar 2500, 10⟩)]

/-- One element of the `issues` list built by `calculate_failure_likelihood`
(src/1.py lines 142-147). -/
structure Issue where
  parameter : String
  value : ℚ
  status : String
  risk_contribution : ℚ
deriving DecidableEq, Repr

/-- The accumulation loop of `calculate_failure_likelihood` (src/1.py lines
132-147): iterate over the parameter items in order, skip the timestamp
field, look the sensor up in the threshold table (a missing sensor raises
KeyError, modelled as `none`), add `risk_factor * weight` to the likelihood
and record an issue for every non-NORMAL sensor, in iteration order. -/
def accumulate (ths : List (String × SensorSpec)) : List (String × ℚ) → Option (ℚ × List Issue)
  | [] => some (0, [])
  | (k, v) :: rest =>
    if k = "timestamp" then accumulate ths rest
    else
      match List.lookup k ths with
      | none => none
      | some spec =>
        match accumulate ths rest with
        | none => none
        | some (l, issues) =>
          let sr := assess_parameter_status spec v
          some (sr.2 * spec.weight + l,
            if sr.1 ≠ "NORMAL" then ⟨k, v, sr.1, sr.2 * spec.weight⟩ :: issues else issues)

/-- The comparison under Python `sorted(issues, key=lambda x: x[...], reverse=True)`:
`a` may precede `b` when `a.risk_contribution ≥ b.risk_contribution`. -/
def issueLE (a b : Issue) : Bool := decide (b.risk_contribution ≤ a.risk_contribution)

/-- The final sort of src/1.py line 149. Python `sorted` with `reverse=True`
is the stable descending sort; a stable sort for a total preorder is unique,
so the stable `List.mergeSort` computes the same list. -/
def sortIssues (issues : List Issue) : List Issue := issues.mergeSort issueLE

/-- `calculate_failure_likelihood` of src/1.py (lines 131-149): accumulate,
then return the likelihood clamped by `min likelihood 100` together with the
issues sorted descending by risk contribution. -/
def calculate_failure_likelihood (ths : List (String × SensorSpec))
    (params : List (String × ℚ)) : Option (ℚ × List Issue) :=
  match accumulate ths params with
  | none => none
  | some (l, issues) => some (min l 100, sortIssues issues)

/-- `_get_last_maintenance_time` of src/1.py (lines 204-207): 0 for an empty
history, else the last record's optional runtime field with default 0. -/
def get_last_maintenance_time (history : List (Option ℚ)) : ℚ :=
  match history.getLast? with
  | none => 0
  | some r => r.getD 0

/-- Python `str.capitalize`: first character upper-cased, the rest lower-cased. -/
def pyCapitalize (s : String) : String := s.toLower.capitalize

/-- Rendering of a numeric value inside a message; abstracts Python string
formatting of numbers. -/
def numStr (q : ℚ) : String := toString q

/-- The overdue-maintenance message of src/1.py lines 160-161, with
`due = total_runtime - last_maintenance_time`. -/
def overdueMessage (due : ℚ) : String :=
  "⚠️ OVERDUE: Regular maintenance schedule exceeded by " ++ numStr (due - 5000) ++ " hours"

/-- The per-issue message of src/1.py lines 168-173: urgent for CRITICAL,
scheduled inspection otherwise. -/
def issueMessage (i : Issue) : String :=
  if i.status = "CRITICAL" then
    "🔴 URGENT: " ++ pyCapitalize i.parameter ++ " is critically high (" ++ numStr i.value
      ++ "). Immediate inspection required."
  else
    "🟡 WARNING: " ++ pyCapitalize i.parameter ++ " is above normal (" ++ numStr i.value
      ++ "). Schedule inspection within 48 hours."

/-- Python `"\n".join`. -/
def joinLines : List String → String
  | [] => ""
  | [s] => s
  | s :: rest => s ++ "\n" ++ joinLines rest

/-- The early-return text of src/1.py line 153 for an empty issues list. -/
def allNormalMessage : String :=
  "All parameters are within normal operating ranges. Continue regular monitoring."

/-- `generate_recommendations` of src/1.py (lines 151-175): early return for
no issues; otherwise read `params["runtime"]` (KeyError modelled as `none`),
prepend the overdue message when `total_runtime - last_maintenance > 5000`,
then one message per issue, joined by newlines. -/
def generate_recommendations (params : List (String × ℚ)) (history : List (Option ℚ))
    (issues : List Issue) : Option String :=
  if issues = [] then some allNormalMessage
  else
    match List.lookup "runtime" params with
    | none => none
    | some total_runtime =>
      let maintenance_due := total_runtime - get_last_maintenance_time history
      let recs := (if maintenance_due > 5000 then [overdueMessage maintenance_due] else [])
        ++ issues.map issueMessage
      some (joinLines recs)

/-- The critical test of src/1.py lines 117-121 as a Boolean, for reasoning
about the two early-return branches at once. -/
def criticalFires (spec : SensorSpec) (value : ℚ) : Bool :=
  match spec.critical with
  | .interval lo hi => decide (value < lo ∨ value > hi)
  | .scalar c => decide (value > c)

/-- Two sensor specs that agree on everything except possibly the normal
range. -/
def eqExceptNormal (s₁ s₂ : SensorSpec) : Prop :=
  s₁.warning = s₂.warning ∧ s₁.critical = s₂.critical ∧ s₁.weight = s₂.weight

/-- The string s begins with the string p. -/
def beginsWith (p s : String) : Prop := ∃ rest, s = p ++ rest

theorem assess_eq_ite (spec : SensorSpec) (value : ℚ) :
    assess_parameter_status spec value =
      if criticalFires spec value then ("CRITICAL", 1) else assessWarning spec value := by
  cases h : spec.critical <;> simp [assess_parameter_status, criticalFires, h]

theorem assessWarning_cases (spec : SensorSpec) (v : ℚ) :
    assessWarning spec v = ("WARNING", 1/2) ∨ assessWarning spec v = ("NORMAL", 0) := by
  cases h : spec.warning <;> simp only [assessWarning, h] <;> split <;> simp

theorem assess_cases (spec : SensorSpec) (v : ℚ) :
    assess_parameter_status spec v = ("CRITICAL", 1) ∨
      assess_parameter_status spec v = ("WARNING", 1/2) ∨
      assess_parameter_status spec v = ("NORMAL", 0) := by
  rw [assess_eq_ite]
  split
  · exact Or.inl rfl
  · rcases assessWarning_cases spec v with h | h <;> simp [h]

/-- C3: for every spec whose critical bound is the interval (lo, hi),
`assess_parameter_status` returns CRITICAL with risk factor 1.0 exactly when
the value lies strictly outside the interval (exterior-is-bad semantics). -/
theorem c3_interval_critical_iff (spec : SensorSpec) (lo hi v : ℚ)
    (h : spec.critical = CritBound.interval lo hi) :
    assess_parameter_status spec v = ("CRITICAL", 1) ↔ (v < lo ∨ v > hi) := by
  rw [assess_eq_ite]
  have hc : criticalFires spec v = decide (v < lo ∨ v > hi) := by
    simp [criticalFires, h]
  rw [hc]
  constructor
  · intro he
    by_contra hcon
    rw [if_neg (by simpa using hcon)] at he
    rcases assessWarning_cases spec v with h2 | h2 <;> rw [h2] at he <;> simp at he
  · intro hcon
    rw [if_pos (by simpa using hcon)]

/-- Witness for C3: the configured pressure critical interval (1.0, 9.0) at
value 0.5 (and the iff settles 9.5 and 5.0 the same way). -/
theorem c3_witness :
    ((⟨(2.0, 8.0), .interval 1.5 8.5, .interval 1.0 9.0, 15⟩ : SensorSpec).critical
        = CritBound.interval 1.0 9.0) ∧
    (assess_parameter_status ⟨(2.0, 8.0), .interval 1.5 8.5, .interval 1.0 9.0, 15⟩ 0.5
        = ("CRITICAL", 1) ↔ ((0.5 : ℚ) < 1.0 ∨ (0.5 : ℚ) > 9.0)) :=
  ⟨rfl, c3_interval_critical_iff _ 1.0 9.0 0.5 rfl⟩

/-- C4: for every spec whose critical bound is a scalar c, any value
strictly above c is assessed CRITICAL with risk factor 1.0, whatever the
warning bound of the spec is. -/
theorem c4_scalar_critical (spec : SensorSpec) (c v : ℚ)
    (h : spec.critical = CritBound.scalar c) (hv : v > c) :
    assess_parameter_status spec v = ("CRITICAL", 1) := by
  have hc : criticalFires spec v = true := by
    simp only [criticalFires, h, decide_eq_true_eq]
    exact hv
  rw [assess_eq_ite, hc, if_pos rfl]

/-- Witness for C4: the configured temperature spec (critical scalar 80) at
value 85. -/
theorem c4_witness :
    ((⟨(20, 60), .interval 60 80, .scalar 80, 25⟩ : SensorSpec).critical
        = CritBound.scalar 80) ∧ (85 : ℚ) > 80 ∧
    assess_parameter_status ⟨(20, 60), .interval 60 80, .scalar 80, 25⟩ 85 = ("CRITICAL", 1) :=
  ⟨rfl, by norm_num, c4_scalar_critical _ 80 85 rfl (by norm_num)⟩

/-- C7: for every spec whose warning bound is the non-tuple two-element form
and whose critical test does not fire, the assessment is WARNING with risk
factor 0.5 exactly when the value exceeds the upper member of the warning
bound; the lower member is never consulted on this code path. -/
theorem c7_pairUpper_warning_iff (spec : SensorSpec) (lo hi v : ℚ)
    (hw : spec.warning = WarnBound.pairUpper lo hi)
    (hc : criticalFires spec v = false) :
    assess_parameter_status spec v = ("WARNING", 1/2) ↔ v > hi := by
  rw [assess_eq_ite, hc]
  simp only [Bool.false_eq_true, if_false, assessWarning, hw]
  split
  · simp_all
  · simp_all

/-- Witness for C7: a spec with warning bound in the non-tuple form (60, 75)
and critical scalar 80, at value 78: the critical test does not fire and the
value exceeds the upper member. -/
theorem c7_witness :
    ((⟨(20, 60), .pairUpper 60 75, .scalar 80, 25⟩ : SensorSpec).warning
        = WarnBound.pairUpper 60 75) ∧
    criticalFires ⟨(20, 60), .pairUpper 60 75, .scalar 80, 25⟩ 78 = false ∧
    (assess_parameter_status ⟨(20, 60), .pairUpper 60 75, .scalar 80, 25⟩ 78
        = ("WARNING", 1/2) ↔ (78 : ℚ) > 75) := by
  have hc : criticalFires ⟨(20, 60), .pairUpper 60 75, .scalar 80, 25⟩ 78 = false := by
    norm_num [criticalFires]
  exact ⟨rfl, hc, c7_pairUpper_warning_iff _ 60 75 78 rfl hc⟩

/-- C1 counterexample: value 30 is strictly inside the configured
temperature normal range (20, 60), yet `assess_parameter_status` returns
WARNING with risk factor 0.5 rather than NORMAL: the warning interval
(60, 80) is tested exterior-is-bad and 30 < 60. -/
theorem c1_counterexample :
    List.lookup "temperature" thresholds
        = some ⟨(20, 60), .interval 60 80, .scalar 80, 25⟩ ∧
    (20 : ℚ) < 30 ∧ (30 : ℚ) < 60 ∧
    assess_parameter_status ⟨(20, 60), .interval 60 80, .scalar 80, 25⟩ 30
        = ("WARNING", 1/2) := by
  refine ⟨by simp [thresholds, List.lookup], by norm_num, by norm_num, ?_⟩
  norm_num [assess_parameter_status, assessWarning]

/-- C1 amended: among the configured specs, only pressure assesses every
value strictly inside its normal range as NORMAL with risk factor 0.0; for
each of the other six configured specs, every value strictly inside the
normal range is assessed WARNING with risk factor 0.5, because the
exterior-is-bad warning test fires below the warning interval. -/
theorem c1_amended (name : String) (spec : SensorSpec) (v : ℚ)
    (hmem : (name, spec) ∈ thresholds)
    (h1 : spec.normal.1 < v) (h2 : v < spec.normal.2) :
    assess_parameter_status spec v
      = if name = "pressure" then ("NORMAL", 0) else ("WARNING", 1/2) := by
  simp only [thresholds, List.mem_cons, List.not_mem_nil, or_false, Prod.mk.injEq] at hmem
  rcases hmem with ⟨rfl, rfl⟩ | ⟨rfl, rfl⟩ | ⟨rfl, rfl⟩ | ⟨rfl, rfl⟩ | ⟨rfl, rfl⟩ |
    ⟨rfl, rfl⟩ | ⟨rfl, rfl⟩ <;> norm_num at h1 h2
  · have hc : ¬ ((80 : ℚ) < v) := by linarith
    have hw : v < (60 : ℚ) ∨ (80 : ℚ) < v := Or.inl (by linarith)
    simp only [assess_parameter_status, assessWarning, gt_iff_lt, if_neg hc, if_pos hw]
    simp
  · have hc : ¬ ((3.0 : ℚ) < v) := by linarith
    have hw : v < (2.0 : ℚ) ∨ (3.0 : ℚ) < v := Or.inl (by linarith)
    simp only [assess_parameter_status, assessWarning, gt_iff_lt, if_neg hc, if_pos hw]
    simp
  · have hc : ¬ (v < (1.0 : ℚ) ∨ (9.0 : ℚ) < v) := by push_neg; exact ⟨by linarith, by linarith⟩
    have hw : ¬ (v < (1.5 : ℚ) ∨ (8.5 : ℚ) < v) := by push_neg; exact ⟨by linarith, by linarith⟩
    simp only [assess_parameter_status, assessWarning, gt_iff_lt, if_neg hc, if_neg hw]
    simp
  · have hc : ¬ ((70 : ℚ) < v) := by linarith
    have hw : v < (60 : ℚ) ∨ (70 : ℚ) < v := Or.inl (by linarith)
    simp only [assess_parameter_status, assessWarning, gt_iff_lt, if_neg hc, if_pos hw]
    simp
  · have hc : ¬ ((8000 : ℚ) < v) := by linarith
    have hw : v < (5000 : ℚ) ∨ (8000 : ℚ) < v := Or.inl (by linarith)
    simp only [assess_parameter_status, assessWarning, gt_iff_lt, if_neg hc, if_pos hw]
    simp
  · have hc : ¬ ((0.9 : ℚ) < v) := by linarith
    have hw : v < (0.7 : ℚ) ∨ (0.9 : ℚ) < v := Or.inl (by linarith)
    simp only [assess_parameter_status, assessWarning, gt_iff_lt, if_neg hc, if_pos hw]
    simp
  · have hc : ¬ ((2500 : ℚ) < v) := by linarith
    have hw : v < (2000 : ℚ) ∨ (2500 : ℚ) < v := Or.inl (by linarith)
    simp only [assess_parameter_status, assessWarning, gt_iff_lt, if_neg hc, if_pos hw]
    simp

theorem thresholds_weight_pos : ∀ p ∈ thresholds, 0 < p.2.weight := by
  intro p hp
  simp only [thresholds, List.mem_cons, List.not_mem_nil, or_false] at hp
  rcases hp with rfl | rfl | rfl | rfl | rfl | rfl | rfl <;> norm_num

theorem lookup_mem {k : String} {b : SensorSpec} {l : List (String × SensorSpec)}
    (h : List.lookup k l = some b) : ∃ a, (a, b) ∈ l := by
  induction l with
  | nil => simp [List.lookup] at h
  | cons p rest ih =>
    obtain ⟨k₀, b₀⟩ := p
    simp only [List.lookup] at h
    cases hk : (k == k₀) with
    | true =>
      rw [hk] at h
      simp only [Option.some.injEq] at h
      exact ⟨k₀, by simp [h]⟩
    | false =>
      rw [hk] at h
      exact (ih h).imp fun a ha => List.mem_cons_of_mem _ ha

/-- Invariant of the accumulation loop: the accumulated likelihood equals
the sum of the recorded risk contributions (NORMAL sensors contribute 0 and
are omitted), and with positive configured weights every recorded
contribution is positive. -/
theorem accumulate_inv {ths : List (String × SensorSpec)}
    (hw : ∀ p ∈ ths, 0 < p.2.weight) :
    ∀ {params : List (String × ℚ)} {l : ℚ} {issues : List Issue},
      accumulate ths params = some (l, issues) →
      l = (issues.map Issue.risk_contribution).sum ∧
        ∀ i ∈ issues, 0 < i.risk_contribution := by
  intro params
  induction params with
  | nil =>
    intro l issues h
    simp only [accumulate, Option.some.injEq, Prod.mk.injEq] at h
    obtain ⟨rfl, rfl⟩ := h.symm
    simp
  | cons p rest ih =>
    intro l issues h
    obtain ⟨k, v⟩ := p
    simp only [accumulate] at h
    by_cases hk : k = "timestamp"
    · rw [if_pos hk] at h
      exact ih h
    · rw [if_neg hk] at h
      cases hlk : List.lookup k ths with
      | none => rw [hlk] at h; simp at h
      | some spec =>
        rw [hlk] at h
        cases hacc : accumulate ths rest with
        | none => rw [hacc] at h; simp at h
        | some pr =>
          obtain ⟨l₀, issues₀⟩ := pr
          rw [hacc] at h
          obtain ⟨hl₀, hi₀⟩ := ih hacc
          have hwpos : 0 < spec.weight := by
            obtain ⟨a, ha⟩ := lookup_mem hlk
            exact hw _ ha
          rcases assess_cases spec v with hs | hs | hs <;>
            simp only [hs, ne_eq, String.reduceEq, not_false_eq_true, if_true, reduceIte,
              Option.some.injEq, Prod.mk.injEq] at h
          · obtain ⟨rfl, rfl⟩ := h.symm
            refine ⟨by simp [hl₀], ?_⟩
            intro i hi
            rcases List.mem_cons.mp hi with rfl | hi
            · simpa using hwpos
            · exact hi₀ i hi
          · obtain ⟨rfl, rfl⟩ := h.symm
            refine ⟨by simp [hl₀], ?_⟩
            intro i hi
            rcases List.mem_cons.mp hi with rfl | hi
            · simp only
              linarith
            · exact hi₀ i hi
          · obtain ⟨rfl, rfl⟩ := h.symm
            exact ⟨by simp [hl₀], hi₀⟩

/-- C2: for every parameter list all of whose non-timestamp keys are
configured, the score of `calculate_failure_likelihood` over the configured
thresholds lies in the interval [0, 100]. -/
theorem c2_score_in_range (params : List (String × ℚ)) (score : ℚ) (issues : List Issue)
    (h : calculate_failure_likelihood thresholds params = some (score, issues)) :
    0 ≤ score ∧ score ≤ 100 := by
  simp only [calculate_failure_likelihood] at h
  cases hacc : accumulate thresholds params with
  | none => rw [hacc] at h; simp at h
  | some pr =>
    obtain ⟨l, raw⟩ := pr
    rw [hacc] at h
    simp only [Option.some.injEq, Prod.mk.injEq] at h
    obtain ⟨hscore, hissues⟩ := h
    obtain ⟨hl, hpos⟩ := accumulate_inv thresholds_weight_pos hacc
    have hl0 : 0 ≤ l := by
      rw [hl]
      refine List.sum_nonneg ?_
      intro x hx
      simp only [List.mem_map] at hx
      obtain ⟨i, hi, rfl⟩ := hx
      exact le_of_lt (hpos i hi)
    rw [← hscore]
    exact ⟨le_min hl0 (by norm_num), min_le_right _ _⟩

/-- Witness for C2: the single-sensor reading temperature = 85. -/
theorem c2_witness :
    calculate_failure_likelihood thresholds [("temperature", 85)]
        = some (25, [⟨"temperature", 85, "CRITICAL", 25⟩]) ∧
    (0 ≤ (25 : ℚ) ∧ (25 : ℚ) ≤ 100) := by
  have heval : calculate_failure_likelihood thresholds [("temperature", 85)]
      = some (25, [⟨"temperature", 85, "CRITICAL", 25⟩]) := by
    norm_num [calculate_failure_likelihood, accumulate, thresholds, assess_parameter_status,
      assessWarning, sortIssues, List.lookup, List.mergeSort]
    simp [List.mergeSort, issueLE, min_def]
    norm_num
  exact ⟨heval, c2_score_in_range [("temperature", 85)] 25 _ heval⟩

/-- C9: over the configured thresholds the returned score equals the sum of
the returned issue contributions clamped by `min · 100`, and the score is 0
exactly when the issues list is empty. -/
theorem c9_score_min_sum (params : List (String × ℚ)) (score : ℚ) (issues : List Issue)
    (h : calculate_failure_likelihood thresholds params = some (score, issues)) :
    score = min ((issues.map Issue.risk_contribution).sum) 100 ∧
      (score = 0 ↔ issues = []) := by
  simp only [calculate_failure_likelihood] at h
  cases hacc : accumulate thresholds params with
  | none => rw [hacc] at h; simp at h
  | some pr =>
    obtain ⟨l, raw⟩ := pr
    rw [hacc] at h
    simp only [Option.some.injEq, Prod.mk.injEq] at h
    obtain ⟨hscore, hissues⟩ := h
    obtain ⟨hl, hpos⟩ := accumulate_inv thresholds_weight_pos hacc
    have hperm : List.Perm (sortIssues raw) raw := List.mergeSort_perm raw issueLE
    have hsum : ((sortIssues raw).map Issue.risk_contribution).sum
        = (raw.map Issue.risk_contribution).sum := (hperm.map _).sum_eq
    constructor
    · rw [← hscore, ← hissues, hsum, ← hl]
    · constructor
      · intro h0
        by_contra hne
        have hrawne : raw ≠ [] := by
          intro hr
          apply hne
          rw [← hissues, hr]
          simp [sortIssues]
        have hlpos : 0 < l := by
          rw [hl]
          refine List.sum_pos _ ?_ ?_
          · intro x hx
            simp only [List.mem_map] at hx
            obtain ⟨i, hi, rfl⟩ := hx
            exact hpos i hi
          · simpa using hrawne
        have hmin : 0 < min l 100 := lt_min hlpos (by norm_num)
        rw [hscore, h0] at hmin
        exact absurd hmin (by norm_num)
      · intro h0
        rw [← hissues] at h0
        have hraw : raw = [] := by
          have hlen := congrArg List.length h0
          simp only [sortIssues, List.length_mergeSort, List.length_nil] at hlen
          exact List.eq_nil_of_length_eq_zero hlen
        subst hraw
        simp only [List.map_nil, List.sum_nil] at hl
        rw [← hscore, hl]
        norm_num

/-- Witness for C9: the single-sensor reading temperature = 85 with one
CRITICAL issue contributing 25, score min 25 100 = 25 which is nonzero. -/
theorem c9_witness :
    calculate_failure_likelihood thresholds [("temperature", 85)]
        = some (25, [⟨"temperature", 85, "CRITICAL", 25⟩]) ∧
    ((25 : ℚ) = min (([(⟨"temperature", 85, "CRITICAL", 25⟩ : Issue)].map
        Issue.risk_contribution).sum) 100 ∧
      ((25 : ℚ) = 0 ↔ ([(⟨"temperature", 85, "CRITICAL", 25⟩ : Issue)] : List Issue) = [])) := by
  have heval : calculate_failure_likelihood thresholds [("temperature", 85)]
      = some (25, [⟨"temperature", 85, "CRITICAL", 25⟩]) := by
    norm_num [calculate_failure_likelihood, accumulate, thresholds, assess_parameter_status,
      assessWarning, sortIssues, List.lookup, List.mergeSort]
    simp [List.mergeSort, issueLE, min_def]
    norm_num
  exact ⟨heval, c9_score_min_sum [("temperature", 85)] 25 _ heval⟩

/-- C6: a parameter entry whose key is not the timestamp and has no
configured spec makes `calculate_failure_likelihood` fail (the KeyError of
the Python lookup, modelled as `none`): no report is returned and the entry
is not skipped. -/
theorem c6_unknown_sensor (ths : List (String × SensorSpec)) (params : List (String × ℚ))
    (k : String) (v : ℚ) (hmem : (k, v) ∈ params) (hk : k ≠ "timestamp")
    (hnone : List.lookup k ths = none) :
    calculate_failure_likelihood ths params = none := by
  suffices h : accumulate ths params = none by
    simp [calculate_failure_likelihood, h]
  induction params with
  | nil => simp at hmem
  | cons p rest ih =>
    obtain ⟨k₀, v₀⟩ := p
    rcases List.mem_cons.mp hmem with heq | htail
    · obtain ⟨rfl, rfl⟩ : k₀ = k ∧ v₀ = v := by
        have := heq.symm
        simpa using this
      simp only [accumulate, if_neg hk, hnone]
    · simp only [accumulate]
      by_cases hk₀ : k₀ = "timestamp"
      · rw [if_pos hk₀]
        exact ih htail
      · rw [if_neg hk₀]
        cases List.lookup k₀ ths with
        | none => rfl
        | some spec => rw [ih htail]

/-- Witness for C6: the unconfigured sensor name voltage. -/
theorem c6_witness :
    (("voltage", (1 : ℚ)) ∈ ([("voltage", (1 : ℚ))] : List (String × ℚ))) ∧
    ("voltage" : String) ≠ "timestamp" ∧
    List.lookup "voltage" thresholds = none ∧
    calculate_failure_likelihood thresholds [("voltage", 1)] = none := by
  have hnone : List.lookup "voltage" thresholds = none := by
    simp [thresholds, List.lookup]
  exact ⟨List.Mem.head _, by simp, hnone,
    c6_unknown_sensor thresholds [("voltage", 1)] "voltage" 1 (List.Mem.head _) (by simp) hnone⟩

theorem issueLE_trans : ∀ a b c : Issue, issueLE a b → issueLE b c → issueLE a c := by
  intro a b c hab hbc
  simp only [issueLE, decide_eq_true_eq] at *
  exact le_trans hbc hab

theorem issueLE_total : ∀ a b : Issue, issueLE a b || issueLE b a := by
  intro a b
  simp only [issueLE, Bool.or_eq_true, decide_eq_true_eq]
  exact le_total b.risk_contribution a.risk_contribution

/-- C5: the issues returned by `calculate_failure_likelihood` are the raw
accumulated issues sorted descending by risk contribution, the result is
pairwise descending, and for every contribution value q the issues with
contribution q appear in exactly their original accumulation order (the
sort is stable). -/
theorem c5_sorted_stable (ths : List (String × SensorSpec)) (params : List (String × ℚ))
    (l : ℚ) (raw : List Issue) (q : ℚ)
    (h : accumulate ths params = some (l, raw)) :
    calculate_failure_likelihood ths params = some (min l 100, sortIssues raw) ∧
    (sortIssues raw).Pairwise (fun a b => b.risk_contribution ≤ a.risk_contribution) ∧
    (sortIssues raw).filter (fun i => decide (i.risk_contribution = q))
      = raw.filter (fun i => decide (i.risk_contribution = q)) := by
  refine ⟨by simp [calculate_failure_likelihood, h], ?_, ?_⟩
  · have hs := List.sorted_mergeSort issueLE_trans issueLE_total raw
    exact hs.imp fun hab => by simpa [issueLE] using hab
  · have hfix : (raw.filter (fun i => decide (i.risk_contribution = q))).filter
        (fun i => decide (i.risk_contribution = q))
        = raw.filter (fun i => decide (i.risk_contribution = q)) :=
      List.filter_eq_self.mpr (fun a ha => (List.mem_filter.mp ha).2)
    have hpair : (raw.filter (fun i => decide (i.risk_contribution = q))).Pairwise
        (fun a b => issueLE a b) := by
      refine List.pairwise_of_forall_mem_list ?_
      intro a ha b hb
      have ha' := (List.mem_filter.mp ha).2
      have hb' := (List.mem_filter.mp hb).2
      simp only [decide_eq_true_eq] at ha' hb'
      simp [issueLE, ha', hb']
    have hsub : List.Sublist (raw.filter (fun i => decide (i.risk_contribution = q)))
        (sortIssues raw) :=
      List.sublist_mergeSort issueLE_trans issueLE_total hpair (List.filter_sublist raw)
    have hsub' : List.Sublist (raw.filter (fun i => decide (i.risk_contribution = q)))
        ((sortIssues raw).filter (fun i => decide (i.risk_contribution = q))) :=
      hfix ▸ hsub.filter (fun i => decide (i.risk_contribution = q))
    have hperm : List.Perm ((sortIssues raw).filter (fun i => decide (i.risk_contribution = q)))
        (raw.filter (fun i => decide (i.risk_contribution = q))) :=
      (List.mergeSort_perm raw issueLE).filter _
    exact (hsub'.eq_of_length hperm.length_eq.symm).symm

/-- Witness for C5: readings load = 0.5 and speed = 1000 both yield WARNING
with equal risk contribution 5; the sorted issues keep load before speed. -/
theorem c5_witness :
    accumulate thresholds [("load", 0.5), ("speed", 1000)]
        = some (10, [⟨"load", 0.5, "WARNING", 5⟩, ⟨"speed", 1000, "WARNING", 5⟩]) ∧
    (calculate_failure_likelihood thresholds [("load", 0.5), ("speed", 1000)]
        = some (min 10 100,
            sortIssues [⟨"load", 0.5, "WARNING", 5⟩, ⟨"speed", 1000, "WARNING", 5⟩]) ∧
      (sortIssues [⟨"load", 0.5, "WARNING", 5⟩, ⟨"speed", 1000, "WARNING", 5⟩]).Pairwise
        (fun a b => b.risk_contribution ≤ a.risk_contribution) ∧
      (sortIssues [⟨"load", 0.5, "WARNING", 5⟩, ⟨"speed", 1000, "WARNING", 5⟩]).filter
          (fun i => decide (i.risk_contribution = 5))
        = ([⟨"load", 0.5, "WARNING", 5⟩, ⟨"speed", 1000, "WARNING", 5⟩] : List Issue).filter
          (fun i => decide (i.risk_contribution = 5))) := by
  have heval : accumulate thresholds [("load", 0.5), ("speed", 1000)]
      = some (10, [⟨"load", 0.5, "WARNING", 5⟩, ⟨"speed", 1000, "WARNING", 5⟩]) := by
    simp [accumulate, thresholds, List.lookup, assess_parameter_status, assessWarning]
    norm_num
    simp
  exact ⟨heval, c5_sorted_stable thresholds [("load", 0.5), ("speed", 1000)] 10 _ 5 heval⟩

theorem assess_eqExceptNormal {s₁ s₂ : SensorSpec} (hs : eqExceptNormal s₁ s₂) (v : ℚ) :
    assess_parameter_status s₁ v = assess_parameter_status s₂ v := by
  obtain ⟨hw, hc, -⟩ := hs
  have hwarn : assessWarning s₁ v = assessWarning s₂ v := by
    simp only [assessWarning, hw]
  simp only [assess_parameter_status, hc, hwarn]

theorem lookup_eqExceptNormal {ths₁ ths₂ : List (String × SensorSpec)}
    (h : List.Forall₂ (fun a b => a.1 = b.1 ∧ eqExceptNormal a.2 b.2) ths₁ ths₂) (k : String) :
    (List.lookup k ths₁ = none ∧ List.lookup k ths₂ = none) ∨
      ∃ s₁ s₂, List.lookup k ths₁ = some s₁ ∧ List.lookup k ths₂ = some s₂ ∧
        eqExceptNormal s₁ s₂ := by
  induction h with
  | nil => simp [List.lookup]
  | @cons a b l₁ l₂ hab hrest ih =>
    obtain ⟨k₁, s₁⟩ := a
    obtain ⟨k₂, s₂⟩ := b
    obtain ⟨hk12, hs⟩ := hab
    simp only at hk12
    subst hk12
    simp only [List.lookup]
    cases hk : (k == k₁) with
    | true => exact Or.inr ⟨s₁, s₂, rfl, rfl, hs⟩
    | false => exact ih

theorem accumulate_eqExceptNormal {ths₁ ths₂ : List (String × SensorSpec)}
    (h : List.Forall₂ (fun a b => a.1 = b.1 ∧ eqExceptNormal a.2 b.2) ths₁ ths₂) :
    ∀ params, accumulate ths₁ params = accumulate ths₂ params := by
  intro params
  induction params with
  | nil => rfl
  | cons p rest ih =>
    obtain ⟨k, v⟩ := p
    simp only [accumulate]
    by_cases hk : k = "timestamp"
    · rw [if_pos hk, if_pos hk]
      exact ih
    · rw [if_neg hk, if_neg hk]
      rcases lookup_eqExceptNormal h k with ⟨h1, h2⟩ | ⟨s₁, s₂, h1, h2, hs⟩
      · rw [h1, h2]
      · rw [h1, h2]
        simp only [ih, assess_eqExceptNormal hs v, hs.2.2]

/-- C10: the normal range of a spec is never read. Two sensor specs that
agree except on the normal range are assessed identically on every value,
and two threshold tables whose entries agree except on normal ranges give
identical `calculate_failure_likelihood` results on every parameter list. -/
theorem c10_normal_unread (s₁ s₂ : SensorSpec) (v : ℚ) (hs : eqExceptNormal s₁ s₂)
    (ths₁ ths₂ : List (String × SensorSpec)) (params : List (String × ℚ))
    (hths : List.Forall₂ (fun a b => a.1 = b.1 ∧ eqExceptNormal a.2 b.2) ths₁ ths₂) :
    assess_parameter_status s₁ v = assess_parameter_status s₂ v ∧
    calculate_failure_likelihood ths₁ params = calculate_failure_likelihood ths₂ params := by
  refine ⟨assess_eqExceptNormal hs v, ?_⟩
  simp only [calculate_failure_likelihood, accumulate_eqExceptNormal hths params]

/-- Witness for C10: the configured temperature spec against a copy whose
normal range is replaced by (0, 1), on value 30 and on a one-entry table. -/
theorem c10_witness :
    eqExceptNormal ⟨(20, 60), .interval 60 80, .scalar 80, 25⟩
        ⟨(0, 1), .interval 60 80, .scalar 80, 25⟩ ∧
    (assess_parameter_status ⟨(20, 60), .interval 60 80, .scalar 80, 25⟩ 30
        = assess_parameter_status ⟨(0, 1), .interval 60 80, .scalar 80, 25⟩ 30 ∧
      calculate_failure_likelihood [("temperature", ⟨(20, 60), .interval 60 80, .scalar 80, 25⟩)]
          [("temperature", 30)]
        = calculate_failure_likelihood [("temperature", ⟨(0, 1), .interval 60 80, .scalar 80, 25⟩)]
          [("temperature", 30)]) := by
  have hs : eqExceptNormal ⟨(20, 60), .interval 60 80, .scalar 80, 25⟩
      ⟨(0, 1), .interval 60 80, .scalar 80, 25⟩ := ⟨rfl, rfl, rfl⟩
  refine ⟨hs, c10_normal_unread _ _ 30 hs _ _ [("temperature", 30)] ?_⟩
  exact List.Forall₂.cons ⟨rfl, hs⟩ List.Forall₂.nil

theorem beginsWith_joinLines (m : String) (l : List String) :
    beginsWith m (joinLines (m :: l)) := by
  cases l with
  | nil => exact ⟨"", by simp [joinLines]⟩
  | cons s rest =>
    exact ⟨"\n" ++ joinLines (s :: rest), by simp [joinLines, String.append_assoc]⟩

/-- C8 amended: for every NON-empty issues list, when
`runtime - last_maintenance > 5000` the returned text is the overdue
message followed by one message per issue (urgent for CRITICAL, scheduled
inspection for the others), and it begins with the overdue message. The
original claim fails for the empty issues list, which short-circuits to the
all-normal text. -/
theorem c8_amended (params : List (String × ℚ)) (history : List (Option ℚ))
    (issues : List Issue) (rt : ℚ) (hne : issues ≠ [])
    (hrt : List.lookup "runtime" params = some rt)
    (hdue : rt - get_last_maintenance_time history > 5000) :
    generate_recommendations params history issues
      = some (joinLines (overdueMessage (rt - get_last_maintenance_time history)
          :: issues.map issueMessage)) ∧
    beginsWith (overdueMessage (rt - get_last_maintenance_time history))
      (joinLines (overdueMessage (rt - get_last_maintenance_time history)
          :: issues.map issueMessage)) := by
  constructor
  · simp only [generate_recommendations, if_neg hne, hrt]
    rw [if_pos hdue]
    simp
  · exact beginsWith_joinLines _ _

/-- C8 counterexample: with an empty issues list the overdue condition is
met yet the returned text is the all-normal message, which does not begin
with the overdue message: the claim fails as stated for every issues list. -/
theorem c8_counterexample :
    (10000 : ℚ) - get_last_maintenance_time [] > 5000 ∧
    generate_recommendations [("runtime", 10000)] [] [] = some allNormalMessage ∧
    ¬ beginsWith (overdueMessage ((10000 : ℚ) - get_last_maintenance_time [])) allNormalMessage := by
  refine ⟨by norm_num [get_last_maintenance_time], by simp [generate_recommendations], ?_⟩
  rintro ⟨rest, hr⟩
  have hdata := congrArg String.data hr
  simp only [overdueMessage, String.data_append, List.append_assoc] at hdata
  have hhead := congrArg List.head? hdata
  simp only [List.head?_append, List.head?_cons, Option.or_some] at hhead
  have hA : allNormalMessage.data.head? = some 'A' := by decide
  rw [hA] at hhead
  simp at hhead

/-- Witness for C8 amended: one CRITICAL temperature issue with runtime
10000 and empty maintenance history. -/
theorem c8_witness :
    (([⟨"temperature", 85, "CRITICAL", 25⟩] : List Issue) ≠ []) ∧
    List.lookup "runtime" [("runtime", (10000 : ℚ))] = some 10000 ∧
    (10000 : ℚ) - get_last_maintenance_time [] > 5000 ∧
    (generate_recommendations [("runtime", 10000)] [] [⟨"temperature", 85, "CRITICAL", 25⟩]
        = some (joinLines (overdueMessage ((10000 : ℚ) - get_last_maintenance_time [])
            :: ([⟨"temperature", 85, "CRITICAL", 25⟩] : List Issue).map issueMessage)) ∧
      beginsWith (overdueMessage ((10000 : ℚ) - get_last_maintenance_time []))
        (joinLines (overdueMessage ((10000 : ℚ) - get_last_maintenance_time [])
            :: ([⟨"temperature", 85, "CRITICAL", 25⟩] : List Issue).map issueMessage))) := by
  have hne : ([⟨"temperature", 85, "CRITICAL", 25⟩] : List Issue) ≠ [] := by simp
  have hrt : List.lookup "runtime" [("runtime", (10000 : ℚ))] = some 10000 := by
    simp [List.lookup]
  have hdue : (10000 : ℚ) - get_last_maintenance_time [] > 5000 := by
    norm_num [get_last_maintenance_time]
  exact ⟨hne, hrt, hdue,
    c8_amended [("runtime", 10000)] [] [⟨"temperature", 85, "CRITICAL", 25⟩] 10000 hne hrt hdue⟩

/-- Witness for C1 amended: the configured temperature spec at value 30,
strictly inside its normal range, assessed WARNING with risk factor 0.5. -/
theorem c1_witness :
    (("temperature", (⟨(20, 60), .interval 60 80, .scalar 80, 25⟩ : SensorSpec)) ∈ thresholds) ∧
    assess_parameter_status ⟨(20, 60), .interval 60 80, .scalar 80, 25⟩ 30 = ("WARNING", 1/2) := by
  refine ⟨List.Mem.head _, ?_⟩
  have h := c1_amended "temperature" ⟨(20, 60), .interval 60 80, .scalar 80, 25⟩ 30
    (List.Mem.head _) (by norm_num) (by norm_num)
  simpa using h
